import Mathlib

/-!
Verification of the page-level storage core declared in
src/src/include/btree.h (WiredTiger btree header, 2008-2011 era).

The development shallowly embeds the header into Lean:

- machine integers (uint32_t, uint64_t, off_t) become Nat, with an
  explicit % 2 ^ w wherever the C code can truncate or wrap;
- the bit-packing macros (WT_ITEM_TYPE, WT_ITEM_LEN, WT_ITEM_SET, the
  address/offset conversion macros) become Nat functions using the same
  masks and shifts as the source;
- the on-disk WT_PAGE_DESC structure becomes a Lean structure together
  with executable encode/decode functions over byte lists, the byte
  layout following the field offsets documented in the source;
- the in-memory WT_PAGE / WT_REF / WT_REPL structures become Lean
  structures, C pointers becoming Option values and the parallel
  pointer arrays becoming Option lists;
- routines that the header documents but whose bodies live outside the
  provided sources (the workQ modification applier, the eviction
  server scan, the item-build length validation) are modelled from the
  specification text and carry a doc comment saying so.
-/

/-! ## Sizes and addresses -/

/-- WT_MEGABYTE: defined outside the provided header (misc header); one
megabyte, used by the allocation-size bounds below. -/
def WT_MEGABYTE : Nat := 1024 * 1024

/-- Smallest file allocation unit, in bytes. -/
def WT_BTREE_ALLOCATION_SIZE : Nat := 512

/-- Largest file allocation unit, in bytes (128MB). -/
def WT_BTREE_ALLOCATION_SIZE_MAX : Nat := 128 * WT_MEGABYTE

/-- Special address for deleted pages: UINT32_MAX - 1. -/
def WT_ADDR_DELETED : Nat := 2 ^ 32 - 2

/-- Special address for pages that do not exist: UINT32_MAX. -/
def WT_ADDR_INVALID : Nat := 2 ^ 32 - 1

/-- The fields of the DB handle that the btree.h macros read.  Only the
allocation-unit size is needed by the embedded macros. -/
structure WT_DB where
  allocsize : Nat
  deriving DecidableEq

/-- WT_ADDR_TO_OFF: convert a data address to a byte offset,
computed as ((off_t)(addr) * (db)->allocsize).  The product is formed
in off_t (64-bit); for the valid address range (addr < 2 ^ 32) and
allocation sizes (at most 128MB = 2 ^ 27) it cannot overflow, so plain
Nat multiplication is the faithful model. -/
def WT_ADDR_TO_OFF (db : WT_DB) (addr : Nat) : Nat :=
  addr * db.allocsize

/-- WT_OFF_TO_ADDR: convert a byte offset to a data address, computed
as ((uint32_t)((off) / (db)->allocsize)).  The division is integer
division and the result is stored into uint32_t, hence the % 2 ^ 32. -/
def WT_OFF_TO_ADDR (db : WT_DB) (off : Nat) : Nat :=
  (off / db.allocsize) % 2 ^ 32

/-! ## Item cells (WT_ITEM) -/

/-- Maximum length of an on-page item: 16MB - 1, the largest value that
fits the 24-bit length field of an item cell. -/
def WT_ITEM_MAX_LEN : Nat := 16 * 1024 * 1024 - 1

/-- Item type tag: key. -/
def WT_ITEM_KEY : Nat := 0x00000000

/-- Item type tag: overflow key. -/
def WT_ITEM_KEY_OVFL : Nat := 0x01000000

/-- Item type tag: duplicate-tree internal key. -/
def WT_ITEM_KEY_DUP : Nat := 0x02000000

/-- Item type tag: duplicate-tree internal overflow key. -/
def WT_ITEM_KEY_DUP_OVFL : Nat := 0x03000000

/-- Item type tag: data. -/
def WT_ITEM_DATA : Nat := 0x04000000

/-- Item type tag: overflow data. -/
def WT_ITEM_DATA_OVFL : Nat := 0x05000000

/-- Item type tag: duplicate data. -/
def WT_ITEM_DATA_DUP : Nat := 0x06000000

/-- Item type tag: duplicate overflow data. -/
def WT_ITEM_DATA_DUP_OVFL : Nat := 0x07000000

/-- Item type tag: deleted item. -/
def WT_ITEM_DEL : Nat := 0x08000000

/-- Item type tag: off-page reference. -/
def WT_ITEM_OFF : Nat := 0x09000000

/-- Item type tag: off-page reference with record count. -/
def WT_ITEM_OFF_RECORD : Nat := 0x0a000000

/-- The closed 11-member enumeration of item type tags. -/
def itemTypeList : List Nat :=
  [WT_ITEM_KEY, WT_ITEM_KEY_OVFL, WT_ITEM_KEY_DUP, WT_ITEM_KEY_DUP_OVFL,
   WT_ITEM_DATA, WT_ITEM_DATA_OVFL, WT_ITEM_DATA_DUP, WT_ITEM_DATA_DUP_OVFL,
   WT_ITEM_DEL, WT_ITEM_OFF, WT_ITEM_OFF_RECORD]

/-- WT_ITEM_TYPE: extract the type from the 4-byte item chunk with the
mask 0x0f000000. -/
def WT_ITEM_TYPE (chunk : Nat) : Nat := chunk &&& 0x0f000000

/-- WT_ITEM_LEN: extract the length from the 4-byte item chunk with the
mask 0x00ffffff. -/
def WT_ITEM_LEN (chunk : Nat) : Nat := chunk &&& 0x00ffffff

/-- WT_ITEM_SET: pack type and size into the uint32 item chunk as
((type) | (size)); the % 2 ^ 32 models the uint32_t store. -/
def WT_ITEM_SET (ty size : Nat) : Nat := (ty ||| size) % 2 ^ 32

/-- WT_ITEM_SET_LEN: store a new length, re-packing the current type. -/
def WT_ITEM_SET_LEN (chunk size : Nat) : Nat :=
  WT_ITEM_SET (WT_ITEM_TYPE chunk) size

/-- WT_ITEM_SET_TYPE: store a new type, re-packing the current length. -/
def WT_ITEM_SET_TYPE (chunk ty : Nat) : Nat :=
  WT_ITEM_SET ty (WT_ITEM_LEN chunk)

/-- The error kinds surfaced by the modelled operations: the
restart-required condition returned by the workQ on a write-generation
mismatch, and the size-limit error for items longer than
WT_ITEM_MAX_LEN. -/
inductive WT_ERR where
  | restart : WT_ERR
  | sizeLimit : WT_ERR
  deriving DecidableEq

/-- Modelled from the spec: the item-build path that validates an item
length before packing a cell is not part of the provided header; per
the spec, encode packs the cell when the length is at most 16MB - 1 and
fails with a size-limit error otherwise.  The packing itself is the
WT_ITEM_SET macro from the source. -/
def itemEncode (ty size : Nat) : Except WT_ERR Nat :=
  if size > WT_ITEM_MAX_LEN then Except.error WT_ERR.sizeLimit
  else Except.ok (WT_ITEM_SET ty size)

/-! ## In-memory modification records (WT_REPL, WT_RLE_EXPAND) -/

/-- WT_REPL: an update/delete record for a page entry.  The C struct
holds an update-buffer pointer, a forward link and a data length; the
buffer pointer is external state and is not modelled, the forward link
becomes an Option. -/
inductive WT_REPL where
  | mk (size : Nat) (next : Option WT_REPL)

/-- WT_RLE_EXPAND: an expansion record for a run-length encoded
column-store slot: an absolute record number, an update list and a
forward link. -/
inductive WT_RLE_EXPAND where
  | mk (recno : Nat) (repl : Option WT_REPL) (next : Option WT_RLE_EXPAND)

/-! ## The in-memory page (WT_PAGE) -/

/-- WT_PAGE: the in-memory information about a file page.  C pointers
(parent, parent_off, dsk and the index array payloads) are external
state not needed by the verified properties; the three generation
counters, the entry count and the three optional parallel arrays are
modelled.  The u2 union members (repl, rleexp) and the u3 member dup
are separate Option fields here: in C at most one member of each union
is in use for a given page type, and an unallocated array is NULL. -/
structure WT_PAGE where
  addr : Nat
  size : Nat
  records : Nat
  read_gen : Nat
  disk_gen : Nat
  write_gen : Nat
  indx_count : Nat
  repl : Option (List (Option WT_REPL))
  rleexp : Option (List (Option WT_RLE_EXPAND))
  dup : Option (List (Option Nat))

/-- WT_PAGE_DISK_WRITE: record that the page was written to disk, by
setting the disk generation to the current write generation. -/
def WT_PAGE_DISK_WRITE (p : WT_PAGE) : WT_PAGE :=
  { p with disk_gen := p.write_gen }

/-- WT_PAGE_IS_MODIFIED: a page is dirty when its disk generation and
write generation differ. -/
def WT_PAGE_IS_MODIFIED (p : WT_PAGE) : Bool :=
  p.disk_gen != p.write_gen

/-- WT_PAGE_SET_MODIFIED: bump the write generation
(++(p)->write_gen on a uint32_t, hence the % 2 ^ 32). -/
def WT_PAGE_SET_MODIFIED (p : WT_PAGE) : WT_PAGE :=
  { p with write_gen := (p.write_gen + 1) % 2 ^ 32 }

/-- Result of scheduling a modification through the workQ: the error
condition, if any, and the page as left by the applier. -/
structure WT_APPLY where
  err : Option WT_ERR
  page : WT_PAGE

/-- Modelled from the spec: the workQ modification applier is not part
of the provided header; per the source comment on write_gen and the
spec, the applier compares the write generation recorded by the search
with the current one, applies the change and bumps the generation
(WT_PAGE_SET_MODIFIED, from the source) when they match, and returns
the restart error leaving the page untouched when they differ. -/
def workQApply (recorded : Nat) (p : WT_PAGE) : WT_APPLY :=
  if recorded = p.write_gen then
    { err := none, page := WT_PAGE_SET_MODIFIED p }
  else
    { err := some WT_ERR.restart, page := p }

/-! ## Overlay array lookup macros -/

/-- __WT_COL_ARRAY: return the array entry for a slot when the array of
pointers and the specific structure exist, NULL otherwise. -/
def __WT_COL_ARRAY {α : Type} (arr : Option (List (Option α))) (slot : Nat) :
    Option α :=
  match arr with
  | none => none
  | some a => a.getD slot none

/-- WT_COL_REPL: the modification list head for a column-store slot. -/
def WT_COL_REPL (p : WT_PAGE) (slot : Nat) : Option WT_REPL :=
  __WT_COL_ARRAY p.repl slot

/-- WT_COL_RLEEXP: the RLE expansion list head for a column-store slot. -/
def WT_COL_RLEEXP (p : WT_PAGE) (slot : Nat) : Option WT_RLE_EXPAND :=
  __WT_COL_ARRAY p.rleexp slot

/-- __WT_ROW_ARRAY: same lookup as __WT_COL_ARRAY, for row slots. -/
def __WT_ROW_ARRAY {α : Type} (arr : Option (List (Option α))) (slot : Nat) :
    Option α :=
  match arr with
  | none => none
  | some a => a.getD slot none

/-- WT_ROW_REPL: the modification list head for a row-store slot. -/
def WT_ROW_REPL (p : WT_PAGE) (slot : Nat) : Option WT_REPL :=
  __WT_ROW_ARRAY p.repl slot

/-- WT_ROW_DUP: the off-page duplicate tree reference for a row slot. -/
def WT_ROW_DUP (p : WT_PAGE) (slot : Nat) : Option Nat :=
  __WT_ROW_ARRAY p.dup slot

/-! ## Page references and the eviction protocol (WT_REF) -/

/-- WT_REF_DISK: the page is on disk (the zero default state). -/
def WT_REF_DISK : Nat := 0

/-- WT_REF_CACHE: the page is in the cache and the reference is valid. -/
def WT_REF_CACHE : Nat := 1

/-- WT_REF_EVICT: the eviction server chose this page and is checking
hazard references. -/
def WT_REF_EVICT : Nat := 2

/-- WT_REF: a page reference, the structure used to decide whether the
page pointer may be dereferenced.  The page pointer becomes an Option
over page identities. -/
structure WT_REF where
  page : Option Nat
  state : Nat
  deriving DecidableEq

/-- Modelled from the spec: the eviction server routine is not part of
the provided header.  Per the source comment on WT_REF and the spec, it
sets the state to WT_REF_EVICT, flushes memory, then scans the hazard
references; on finding one for this page it resets the state to
WT_REF_CACHE restoring the page to the readers, otherwise it discards
the page and the reference reverts to the zero WT_REF_DISK state.  The
hazard argument lists the pages for which some reader currently holds a
hazard reference. -/
def evictAttempt (r : WT_REF) (hazard : List Nat) : WT_REF :=
  let marked : WT_REF := { r with state := WT_REF_EVICT }
  match marked.page with
  | some p =>
      if p ∈ hazard then { marked with state := WT_REF_CACHE }
      else { page := none, state := WT_REF_DISK }
  | none => { page := none, state := WT_REF_DISK }

/-! ## The file descriptor (WT_PAGE_DESC) -/

/-- Magic number of a btree file. -/
def WT_BTREE_MAGIC : Nat := 120897

/-- Major version number. -/
def WT_BTREE_MAJOR_VERSION : Nat := 0

/-- Minor version number. -/
def WT_BTREE_MINOR_VERSION : Nat := 1

/-- Expected encoded size of the file descriptor, in bytes. -/
def WT_PAGE_DESC_SIZE : Nat := 512

/-- WT_PAGE_DESC: the file description written into the first 512 bytes
of the file.  The unused1[3] and unused2[112] padding fields always
hold zero bytes and are not carried in the structure. -/
structure WT_PAGE_DESC where
  magic : Nat
  majorv : Nat
  minorv : Nat
  intlmax : Nat
  intlmin : Nat
  leafmax : Nat
  leafmin : Nat
  recno_offset : Nat
  root_addr : Nat
  root_size : Nat
  records : Nat
  free_addr : Nat
  free_size : Nat
  flags : Nat
  fixed_len : Nat
  deriving DecidableEq

/-- A descriptor is valid when every field fits its declared C type:
uint32_t, uint16_t or uint8_t, and uint64_t for the two counters. -/
def ValidPageDesc (d : WT_PAGE_DESC) : Prop :=
  d.magic < 2 ^ 32 ∧ d.majorv < 2 ^ 16 ∧ d.minorv < 2 ^ 16 ∧
  d.intlmax < 2 ^ 32 ∧ d.intlmin < 2 ^ 32 ∧
  d.leafmax < 2 ^ 32 ∧ d.leafmin < 2 ^ 32 ∧
  d.recno_offset < 2 ^ 64 ∧ d.root_addr < 2 ^ 32 ∧ d.root_size < 2 ^ 32 ∧
  d.records < 2 ^ 64 ∧ d.free_addr < 2 ^ 32 ∧ d.free_size < 2 ^ 32 ∧
  d.flags < 2 ^ 32 ∧ d.fixed_len < 2 ^ 8

/-- One byte, the low 8 bits of a value. -/
def le8 (x : Nat) : List Nat := [x % 256]

/-- A uint16_t as 2 bytes, low byte first. -/
def le16 (x : Nat) : List Nat := [x % 256, x / 256 % 256]

/-- A uint32_t as 4 bytes, low byte first. -/
def le32 (x : Nat) : List Nat :=
  [x % 256, x / 256 % 256, x / 65536 % 256, x / 16777216 % 256]

/-- A uint64_t as 8 bytes, low byte first. -/
def le64 (x : Nat) : List Nat :=
  [x % 256, x / 256 % 256, x / 65536 % 256, x / 16777216 % 256,
   x / 4294967296 % 256, x / 1099511627776 % 256,
   x / 281474976710656 % 256, x / 72057594037927936 % 256]

/-- Reassemble a uint16_t from 2 bytes, low byte first. -/
def de16 (b0 b1 : Nat) : Nat := b0 + 256 * b1

/-- Reassemble a uint32_t from 4 bytes, low byte first. -/
def de32 (b0 b1 b2 b3 : Nat) : Nat :=
  b0 + 256 * b1 + 65536 * b2 + 16777216 * b3

/-- Reassemble a uint64_t from 8 bytes, low byte first. -/
def de64 (b0 b1 b2 b3 b4 b5 b6 b7 : Nat) : Nat :=
  b0 + 256 * b1 + 65536 * b2 + 16777216 * b3 + 4294967296 * b4 +
  1099511627776 * b5 + 281474976710656 * b6 + 72057594037927936 * b7

/-- Serialize a WT_PAGE_DESC at the byte offsets documented in the
source: magic 00-03, majorv 04-05, minorv 06-07, intlmax 08-11,
intlmin 12-15, leafmax 16-19, leafmin 20-23, recno_offset 24-31,
root_addr 32-35, root_size 36-39, records 40-47, free_addr 48-51,
free_size 52-55, flags 56-59, fixed_len 60, unused1 61-63 and the
448 unused2 bytes, 512 bytes in all. -/
def encodePageDesc (d : WT_PAGE_DESC) : List Nat :=
  le32 d.magic ++ le16 d.majorv ++ le16 d.minorv ++
  le32 d.intlmax ++ le32 d.intlmin ++ le32 d.leafmax ++ le32 d.leafmin ++
  le64 d.recno_offset ++ le32 d.root_addr ++ le32 d.root_size ++
  le64 d.records ++ le32 d.free_addr ++ le32 d.free_size ++
  le32 d.flags ++ le8 d.fixed_len ++ [0, 0, 0] ++ List.replicate 448 0

/-- Decode a WT_PAGE_DESC from the leading 64 bytes of a buffer, at the
same offsets used by encodePageDesc; fails when the buffer is shorter
than the fixed header part. -/
def decodePageDesc (bs : List Nat) : Option WT_PAGE_DESC :=
  match bs with
  | b0 :: b1 :: b2 :: b3 :: b4 :: b5 :: b6 :: b7 ::
    b8 :: b9 :: b10 :: b11 :: b12 :: b13 :: b14 :: b15 ::
    b16 :: b17 :: b18 :: b19 :: b20 :: b21 :: b22 :: b23 ::
    b24 :: b25 :: b26 :: b27 :: b28 :: b29 :: b30 :: b31 ::
    b32 :: b33 :: b34 :: b35 :: b36 :: b37 :: b38 :: b39 ::
    b40 :: b41 :: b42 :: b43 :: b44 :: b45 :: b46 :: b47 ::
    b48 :: b49 :: b50 :: b51 :: b52 :: b53 :: b54 :: b55 ::
    b56 :: b57 :: b58 :: b59 :: b60 :: _b61 :: _b62 :: _b63 :: _ =>
      some {
        magic := de32 b0 b1 b2 b3,
        majorv := de16 b4 b5,
        minorv := de16 b6 b7,
        intlmax := de32 b8 b9 b10 b11,
        intlmin := de32 b12 b13 b14 b15,
        leafmax := de32 b16 b17 b18 b19,
        leafmin := de32 b20 b21 b22 b23,
        recno_offset := de64 b24 b25 b26 b27 b28 b29 b30 b31,
        root_addr := de32 b32 b33 b34 b35,
        root_size := de32 b36 b37 b38 b39,
        records := de64 b40 b41 b42 b43 b44 b45 b46 b47,
        free_addr := de32 b48 b49 b50 b51,
        free_size := de32 b52 b53 b54 b55,
        flags := de32 b56 b57 b58 b59,
        fixed_len := b60 }
  | _ => none

/-! ## Bit-arithmetic helper lemmas -/

/-- Bits of a value shifted up by n positions. -/
theorem testBit_mul_pow (a n i : Nat) :
    (a * 2 ^ n).testBit i = if i < n then false else a.testBit (i - n) := by
  rw [show a * 2 ^ n = 2 ^ n * a + 0 by ring,
      Nat.testBit_mul_pow_two_add a (Nat.two_pow_pos n) i]
  simp [Nat.zero_testBit]

/-- Bitwise or of disjoint high and low parts is addition. -/
theorem lor_mul_pow_add (a b n : Nat) (h : b < 2 ^ n) :
    a * 2 ^ n ||| b = a * 2 ^ n + b := by
  apply Nat.eq_of_testBit_eq
  intro i
  rw [Nat.testBit_lor, testBit_mul_pow,
      show a * 2 ^ n + b = 2 ^ n * a + b by ring,
      Nat.testBit_mul_pow_two_add a h i]
  by_cases hi : i < n
  · simp [hi]
  · have hb : b.testBit i = false :=
      Nat.testBit_lt_two_pow
        (lt_of_lt_of_le h (Nat.pow_le_pow_right (by norm_num) (Nat.le_of_not_lt hi)))
    simp [hi, hb]

/-- Bitwise and acts componentwise on values shifted up by n. -/
theorem land_mul_pow (a b n : Nat) :
    (a * 2 ^ n) &&& (b * 2 ^ n) = (a &&& b) * 2 ^ n := by
  apply Nat.eq_of_testBit_eq
  intro i
  rw [Nat.testBit_land, testBit_mul_pow, testBit_mul_pow, testBit_mul_pow,
      Nat.testBit_land]
  by_cases hi : i < n
  · simp [hi]
  · simp [hi]

/-- A value below 2 ^ n shares no bits with a multiple of 2 ^ n. -/
theorem land_small_mul_pow (a b n : Nat) (h : b < 2 ^ n) :
    b &&& a * 2 ^ n = 0 := by
  apply Nat.eq_of_testBit_eq
  intro i
  rw [Nat.testBit_land, testBit_mul_pow, Nat.zero_testBit]
  by_cases hi : i < n
  · simp [hi]
  · have hb : b.testBit i = false :=
      Nat.testBit_lt_two_pow
        (lt_of_lt_of_le h (Nat.pow_le_pow_right (by norm_num) (Nat.le_of_not_lt hi)))
    simp [hi, hb]

/-- Bitwise and distributes over bitwise or. -/
theorem lor_land_distrib (x y z : Nat) :
    (x ||| y) &&& z = x &&& z ||| y &&& z := by
  apply Nat.eq_of_testBit_eq
  intro i
  rw [Nat.testBit_land, Nat.testBit_lor, Nat.testBit_lor, Nat.testBit_land,
      Nat.testBit_land, Bool.and_or_distrib_right]

/-- Reduction mod 2 ^ n commutes with bitwise and. -/
theorem land_mod_two_pow (x y n : Nat) :
    (x &&& y) % 2 ^ n = x % 2 ^ n &&& y % 2 ^ n := by
  apply Nat.eq_of_testBit_eq
  intro i
  rw [Nat.testBit_mod_two_pow, Nat.testBit_land, Nat.testBit_land,
      Nat.testBit_mod_two_pow, Nat.testBit_mod_two_pow]
  by_cases hi : i < n <;> simp [hi]

/-- Packing a type tag that is a multiple of 2 ^ 24 below 2 ^ 28
together with a 24-bit length is exact: both masks read back their
field. -/
theorem item_set_spec (ty s : Nat) (h1 : ty % 2 ^ 24 = 0) (h2 : ty < 2 ^ 28)
    (h3 : s < 2 ^ 24) :
    WT_ITEM_TYPE (WT_ITEM_SET ty s) = ty ∧
    WT_ITEM_LEN (WT_ITEM_SET ty s) = s := by
  obtain ⟨q, rfl⟩ : ∃ q, ty = q * 2 ^ 24 :=
    ⟨ty / 2 ^ 24, (Nat.div_mul_cancel (Nat.dvd_of_mod_eq_zero h1)).symm⟩
  have hq : q < 2 ^ 4 := by omega
  have hadd : q * 2 ^ 24 ||| s = q * 2 ^ 24 + s := lor_mul_pow_add q s 24 h3
  have hset : WT_ITEM_SET (q * 2 ^ 24) s = q * 2 ^ 24 ||| s := by
    unfold WT_ITEM_SET
    rw [hadd]
    omega
  refine ⟨?_, ?_⟩
  · unfold WT_ITEM_TYPE
    rw [hset, show (0x0f000000 : Nat) = 15 * 2 ^ 24 by norm_num, lor_land_distrib,
        land_small_mul_pow 15 s 24 h3, Nat.or_zero, land_mul_pow,
        show (15 : Nat) = 2 ^ 4 - 1 by norm_num, Nat.and_pow_two_sub_one_eq_mod,
        Nat.mod_eq_of_lt hq]
  · unfold WT_ITEM_LEN
    rw [hset, show (0x00ffffff : Nat) = 2 ^ 24 - 1 by norm_num,
        Nat.and_pow_two_sub_one_eq_mod, hadd]
    omega

/-! ## Claim theorems: item and address codecs -/

/-- C1: Item cell codec round-trip.  For every item type in the
11-member enumeration and every length in [0, 16*1024*1024 - 1],
decoding the type of the encoded 4-byte cell returns the original type
and decoding the length returns the original length. -/
theorem item_cell_codec_roundtrip (ty len : Nat) (hty : ty ∈ itemTypeList)
    (hlen : len ≤ WT_ITEM_MAX_LEN) :
    WT_ITEM_TYPE (WT_ITEM_SET ty len) = ty ∧
    WT_ITEM_LEN (WT_ITEM_SET ty len) = len := by
  have hlen24 : len < 2 ^ 24 := by
    unfold WT_ITEM_MAX_LEN at hlen
    omega
  unfold itemTypeList at hty
  fin_cases hty <;> exact item_set_spec _ _ (by decide) (by decide) hlen24

/-- C1 witness: a concrete data item of length 12345. -/
theorem item_cell_codec_roundtrip_witness :
    WT_ITEM_TYPE (WT_ITEM_SET WT_ITEM_DATA 12345) = WT_ITEM_DATA ∧
    WT_ITEM_LEN (WT_ITEM_SET WT_ITEM_DATA 12345) = 12345 :=
  item_cell_codec_roundtrip WT_ITEM_DATA 12345 (by decide) (by decide)

/-- C2: Address/offset codec round-trip.  For every address in
[0, WT_ADDR_INVALID) and every allocation unit in [512 bytes, 128 MB],
converting the address to a byte offset and back returns the address. -/
theorem addr_off_roundtrip (db : WT_DB) (a : Nat)
    (hmin : WT_BTREE_ALLOCATION_SIZE ≤ db.allocsize)
    (_hmax : db.allocsize ≤ WT_BTREE_ALLOCATION_SIZE_MAX)
    (ha : a < WT_ADDR_INVALID) :
    WT_OFF_TO_ADDR db (WT_ADDR_TO_OFF db a) = a := by
  unfold WT_OFF_TO_ADDR WT_ADDR_TO_OFF
  unfold WT_BTREE_ALLOCATION_SIZE at hmin
  unfold WT_ADDR_INVALID at ha
  rw [Nat.mul_div_cancel a (by omega)]
  omega

/-- C2 witness: address 123456 with the minimum allocation unit. -/
theorem addr_off_roundtrip_witness :
    WT_OFF_TO_ADDR ⟨512⟩ (WT_ADDR_TO_OFF ⟨512⟩ 123456) = 123456 :=
  addr_off_roundtrip ⟨512⟩ 123456 (by decide) (by decide) (by decide)

/-- C6: Item encode length cap.  For every type tag, encoding an item
whose byte length exceeds 16 MiB - 1 fails with the size-limit error
rather than producing a cell. -/
theorem item_encode_length_cap (ty len : Nat) (h : WT_ITEM_MAX_LEN < len) :
    itemEncode ty len = Except.error WT_ERR.sizeLimit := by
  unfold itemEncode
  rw [if_pos h]

/-- C6 witness: encoding a 16 MiB key fails. -/
theorem item_encode_length_cap_witness :
    itemEncode WT_ITEM_KEY 16777216 = Except.error WT_ERR.sizeLimit :=
  item_encode_length_cap WT_ITEM_KEY 16777216 (by decide)

/-- C8: Item tag field-update frame.  For every 4-byte item cell, the
update-length operation sets the 24-bit length field and leaves the
decoded type unchanged, and the update-type operation sets the 4-bit
type field and leaves the decoded length unchanged. -/
theorem item_field_update_frame (chunk s ty : Nat) (hs : s ≤ WT_ITEM_MAX_LEN)
    (hty : ty ∈ itemTypeList) :
    WT_ITEM_TYPE (WT_ITEM_SET_LEN chunk s) = WT_ITEM_TYPE chunk ∧
    WT_ITEM_LEN (WT_ITEM_SET_LEN chunk s) = s ∧
    WT_ITEM_TYPE (WT_ITEM_SET_TYPE chunk ty) = ty ∧
    WT_ITEM_LEN (WT_ITEM_SET_TYPE chunk ty) = WT_ITEM_LEN chunk := by
  have hs24 : s < 2 ^ 24 := by
    unfold WT_ITEM_MAX_LEN at hs
    omega
  have ht1 : WT_ITEM_TYPE chunk % 2 ^ 24 = 0 := by
    unfold WT_ITEM_TYPE
    rw [land_mod_two_pow, show (0x0f000000 : Nat) % 2 ^ 24 = 0 by norm_num]
    exact Nat.and_zero _
  have ht2 : WT_ITEM_TYPE chunk < 2 ^ 28 := by
    unfold WT_ITEM_TYPE
    calc chunk &&& 0x0f000000 ≤ 0x0f000000 := Nat.and_le_right
    _ < 2 ^ 28 := by norm_num
  have hl : WT_ITEM_LEN chunk < 2 ^ 24 := by
    unfold WT_ITEM_LEN
    calc chunk &&& 0x00ffffff ≤ 0x00ffffff := Nat.and_le_right
    _ < 2 ^ 24 := by norm_num
  have hty1 : ty % 2 ^ 24 = 0 := by
    unfold itemTypeList at hty
    fin_cases hty <;> decide
  have hty2 : ty < 2 ^ 28 := by
    unfold itemTypeList at hty
    fin_cases hty <;> decide
  have hPart1 := item_set_spec (WT_ITEM_TYPE chunk) s ht1 ht2 hs24
  have hPart2 := item_set_spec ty (WT_ITEM_LEN chunk) hty1 hty2 hl
  exact ⟨hPart1.1, hPart1.2, hPart2.1, hPart2.2⟩

/-- C8 witness: a concrete data cell, updated to length 7 and to the
deleted type. -/
theorem item_field_update_frame_witness :
    WT_ITEM_TYPE (WT_ITEM_SET_LEN 0x04000010 7) = WT_ITEM_TYPE 0x04000010 ∧
    WT_ITEM_LEN (WT_ITEM_SET_LEN 0x04000010 7) = 7 ∧
    WT_ITEM_TYPE (WT_ITEM_SET_TYPE 0x04000010 WT_ITEM_DEL) = WT_ITEM_DEL ∧
    WT_ITEM_LEN (WT_ITEM_SET_TYPE 0x04000010 WT_ITEM_DEL) =
      WT_ITEM_LEN 0x04000010 :=
  item_field_update_frame 0x04000010 7 WT_ITEM_DEL (by decide) (by decide)

/-- C10: Offset-to-address decode performs no validation.  For every
byte offset, written as a * allocsize + r with r < allocsize, the
conversion returns the quotient reduced mod 2 ^ 32: a non-aligned
offset (r possibly nonzero) is silently rounded down, and a quotient
beyond 32 bits silently wraps; no failure path exists. -/
theorem off_to_addr_no_validation (db : WT_DB) (a r : Nat)
    (hu : 0 < db.allocsize) (hr : r < db.allocsize) :
    WT_OFF_TO_ADDR db (a * db.allocsize + r) = a % 2 ^ 32 := by
  unfold WT_OFF_TO_ADDR
  have hdiv : (a * db.allocsize + r) / db.allocsize = a := by
    rw [Nat.add_comm, Nat.add_mul_div_right r a hu, Nat.div_eq_of_lt hr]
    omega
  rw [hdiv]

/-- C10 witness: a misaligned offset whose quotient 2 ^ 32 + 5 wraps to
5 under the minimum allocation unit. -/
theorem off_to_addr_no_validation_witness :
    WT_OFF_TO_ADDR ⟨512⟩ (4294967301 * 512 + 100) = 5 :=
  (off_to_addr_no_validation ⟨512⟩ 4294967301 100 (by decide)
    (by decide)).trans (by decide)

/-! ## Claim theorems: generations, eviction, overlay -/

/-- A page with matching generations 3/3 and no overlay arrays, used as
a concrete input by witnesses. -/
def examplePage : WT_PAGE :=
  { addr := 3, size := 1024, records := 10, read_gen := 5, disk_gen := 3,
    write_gen := 3, indx_count := 4, repl := none, rleexp := none,
    dup := none }

/-- C3 (amended): Optimistic generation check.  When the applier
processes a scheduled modification, a recorded write generation
different from the current one fails with the restart-required error
and leaves the write generation unchanged; a matching one succeeds and
the write generation becomes its successor reduced mod 2 ^ 32 (the
uint32_t increment), which is an increment by exactly one except at the
wrap-around value 2 ^ 32 - 1. -/
theorem workq_generation_check (recorded : Nat) (p : WT_PAGE) :
    (recorded ≠ p.write_gen →
      (workQApply recorded p).err = some WT_ERR.restart ∧
      (workQApply recorded p).page.write_gen = p.write_gen) ∧
    (recorded = p.write_gen →
      (workQApply recorded p).err = none ∧
      (workQApply recorded p).page.write_gen = (p.write_gen + 1) % 2 ^ 32) := by
  constructor
  · intro h
    unfold workQApply
    rw [if_neg h]
    exact ⟨rfl, rfl⟩
  · intro h
    unfold workQApply
    rw [if_pos h]
    exact ⟨rfl, rfl⟩

/-- C3 witness: on examplePage (write generation 3), a stale recorded
generation 7 fails with restart leaving the generation at 3, and the
matching recorded generation 3 succeeds bumping it. -/
theorem workq_generation_check_witness :
    ((workQApply 7 examplePage).err = some WT_ERR.restart ∧
     (workQApply 7 examplePage).page.write_gen = examplePage.write_gen) ∧
    ((workQApply 3 examplePage).err = none ∧
     (workQApply 3 examplePage).page.write_gen =
       (examplePage.write_gen + 1) % 2 ^ 32) :=
  ⟨(workq_generation_check 7 examplePage).1 (by decide),
   (workq_generation_check 3 examplePage).2 (by decide)⟩

/-- A page whose write generation sits at the uint32_t maximum. -/
def wrapPage : WT_PAGE :=
  { addr := 0, size := 512, records := 0, read_gen := 0, disk_gen := 0,
    write_gen := 4294967295, indx_count := 0, repl := none, rleexp := none,
    dup := none }

/-- C3 counterexample: at write generation 2 ^ 32 - 1 the applier
succeeds but the uint32_t increment wraps to 0, which is not an
increment by exactly one. -/
theorem workq_generation_check_counterexample :
    (workQApply 4294967295 wrapPage).err = none ∧
    (workQApply 4294967295 wrapPage).page.write_gen = 0 ∧
    (workQApply 4294967295 wrapPage).page.write_gen ≠
      wrapPage.write_gen + 1 := by
  refine ⟨rfl, by decide, by decide⟩

/-- C4: Dirty tracking.  A page is dirty exactly when its disk
generation differs from its write generation; immediately after a
write-back the page is clean, and a subsequent successful modification
makes the two generations differ again. -/
theorem page_dirty_tracking (p : WT_PAGE) :
    (WT_PAGE_IS_MODIFIED p = true ↔ p.disk_gen ≠ p.write_gen) ∧
    WT_PAGE_IS_MODIFIED (WT_PAGE_DISK_WRITE p) = false ∧
    WT_PAGE_IS_MODIFIED (WT_PAGE_SET_MODIFIED (WT_PAGE_DISK_WRITE p)) =
      true := by
  refine ⟨?_, ?_, ?_⟩
  · simp [WT_PAGE_IS_MODIFIED]
  · simp [WT_PAGE_IS_MODIFIED, WT_PAGE_DISK_WRITE]
  · simp only [WT_PAGE_IS_MODIFIED, WT_PAGE_DISK_WRITE, WT_PAGE_SET_MODIFIED,
      bne_iff_ne, ne_eq]
    omega

/-- C5: Hazard-reference eviction safety.  An evict attempt against a
reference whose page is protected by a live hazard reference does not
reclaim the page: the attempt returns the reference unchanged, back in
the in-cache state, indistinguishable from one never targeted. -/
theorem hazard_blocks_evict (r : WT_REF) (pid : Nat) (hz : List Nat)
    (hstate : r.state = WT_REF_CACHE) (hpage : r.page = some pid)
    (hhz : pid ∈ hz) :
    evictAttempt r hz = r ∧ (evictAttempt r hz).state = WT_REF_CACHE := by
  rcases r with ⟨pg, st⟩
  obtain rfl : pg = some pid := hpage
  obtain rfl : st = WT_REF_CACHE := hstate
  unfold evictAttempt
  simp [hhz]

/-- C5 witness: a cached reference to page 7 survives an evict attempt
while a reader holds a hazard reference on page 7. -/
theorem hazard_blocks_evict_witness :
    evictAttempt ⟨some 7, WT_REF_CACHE⟩ [7] = ⟨some 7, WT_REF_CACHE⟩ ∧
    (evictAttempt ⟨some 7, WT_REF_CACHE⟩ [7]).state = WT_REF_CACHE :=
  hazard_blocks_evict ⟨some 7, WT_REF_CACHE⟩ 7 [7] rfl rfl (by decide)

/-- C9: Overlay lookup is total on unmodified pages.  For every page
and slot, when the modification, RLE-expansion and duplicate-tree
arrays were never allocated, each lookup returns the absent value
rather than faulting, so a never-modified page reports no
modification. -/
theorem unmodified_overlay_absent (p : WT_PAGE) (slot : Nat)
    (h1 : p.repl = none) (h2 : p.rleexp = none) (h3 : p.dup = none) :
    WT_COL_REPL p slot = none ∧ WT_COL_RLEEXP p slot = none ∧
    WT_ROW_REPL p slot = none ∧ WT_ROW_DUP p slot = none := by
  unfold WT_COL_REPL WT_COL_RLEEXP WT_ROW_REPL WT_ROW_DUP __WT_COL_ARRAY
    __WT_ROW_ARRAY
  rw [h1, h2, h3]
  exact ⟨rfl, rfl, rfl, rfl⟩

/-- C9 witness: slot 2 of the never-modified examplePage reports no
modification state of any kind. -/
theorem unmodified_overlay_absent_witness :
    WT_COL_REPL examplePage 2 = none ∧ WT_COL_RLEEXP examplePage 2 = none ∧
    WT_ROW_REPL examplePage 2 = none ∧ WT_ROW_DUP examplePage 2 = none :=
  unmodified_overlay_absent examplePage 2 rfl rfl rfl

/-! ## Claim theorems: the file descriptor layout -/

set_option maxHeartbeats 1000000 in
/-- encodePageDesc written out as one flat byte list; each byte sits at
the offset documented for its field in the source. -/
theorem encodePageDesc_flat (d : WT_PAGE_DESC) :
    encodePageDesc d =
      d.magic % 256 :: d.magic / 256 % 256 :: d.magic / 65536 % 256 :: d.magic / 16777216 % 256 ::
      d.majorv % 256 :: d.majorv / 256 % 256 :: d.minorv % 256 :: d.minorv / 256 % 256 ::
      d.intlmax % 256 :: d.intlmax / 256 % 256 :: d.intlmax / 65536 % 256 :: d.intlmax / 16777216 % 256 ::
      d.intlmin % 256 :: d.intlmin / 256 % 256 :: d.intlmin / 65536 % 256 :: d.intlmin / 16777216 % 256 ::
      d.leafmax % 256 :: d.leafmax / 256 % 256 :: d.leafmax / 65536 % 256 :: d.leafmax / 16777216 % 256 ::
      d.leafmin % 256 :: d.leafmin / 256 % 256 :: d.leafmin / 65536 % 256 :: d.leafmin / 16777216 % 256 ::
      d.recno_offset % 256 :: d.recno_offset / 256 % 256 :: d.recno_offset / 65536 % 256 :: d.recno_offset / 16777216 % 256 ::
      d.recno_offset / 4294967296 % 256 :: d.recno_offset / 1099511627776 % 256 :: d.recno_offset / 281474976710656 % 256 :: d.recno_offset / 72057594037927936 % 256 ::
      d.root_addr % 256 :: d.root_addr / 256 % 256 :: d.root_addr / 65536 % 256 :: d.root_addr / 16777216 % 256 ::
      d.root_size % 256 :: d.root_size / 256 % 256 :: d.root_size / 65536 % 256 :: d.root_size / 16777216 % 256 ::
      d.records % 256 :: d.records / 256 % 256 :: d.records / 65536 % 256 :: d.records / 16777216 % 256 ::
      d.records / 4294967296 % 256 :: d.records / 1099511627776 % 256 :: d.records / 281474976710656 % 256 :: d.records / 72057594037927936 % 256 ::
      d.free_addr % 256 :: d.free_addr / 256 % 256 :: d.free_addr / 65536 % 256 :: d.free_addr / 16777216 % 256 ::
      d.free_size % 256 :: d.free_size / 256 % 256 :: d.free_size / 65536 % 256 :: d.free_size / 16777216 % 256 ::
      d.flags % 256 :: d.flags / 256 % 256 :: d.flags / 65536 % 256 :: d.flags / 16777216 % 256 ::
      d.fixed_len % 256 :: 0 :: 0 :: 0 ::
      List.replicate 448 0 := rfl

set_option maxRecDepth 8192 in
set_option maxHeartbeats 1000000 in
/-- C7: File Descriptor layout.  The encoded descriptor occupies
exactly 512 bytes, each field sits at its documented byte offset
(magic 0, major-version 4, minor-version 6, intl-max 8, intl-min 12,
leaf-max 16, leaf-min 20, recno-offset 24, root-addr 32, root-size 36,
records 40, free-addr 48, free-size 52, flags 56, fixed-len 60), and
for every valid field combination decoding an encoded descriptor
returns the original fields. -/
theorem page_desc_layout_roundtrip (d : WT_PAGE_DESC) (h : ValidPageDesc d) :
    (encodePageDesc d).length = WT_PAGE_DESC_SIZE ∧
    decodePageDesc (encodePageDesc d) = some d ∧
    List.take 4 (List.drop 0 (encodePageDesc d)) = le32 d.magic ∧
    List.take 2 (List.drop 4 (encodePageDesc d)) = le16 d.majorv ∧
    List.take 2 (List.drop 6 (encodePageDesc d)) = le16 d.minorv ∧
    List.take 4 (List.drop 8 (encodePageDesc d)) = le32 d.intlmax ∧
    List.take 4 (List.drop 12 (encodePageDesc d)) = le32 d.intlmin ∧
    List.take 4 (List.drop 16 (encodePageDesc d)) = le32 d.leafmax ∧
    List.take 4 (List.drop 20 (encodePageDesc d)) = le32 d.leafmin ∧
    List.take 8 (List.drop 24 (encodePageDesc d)) = le64 d.recno_offset ∧
    List.take 4 (List.drop 32 (encodePageDesc d)) = le32 d.root_addr ∧
    List.take 4 (List.drop 36 (encodePageDesc d)) = le32 d.root_size ∧
    List.take 8 (List.drop 40 (encodePageDesc d)) = le64 d.records ∧
    List.take 4 (List.drop 48 (encodePageDesc d)) = le32 d.free_addr ∧
    List.take 4 (List.drop 52 (encodePageDesc d)) = le32 d.free_size ∧
    List.take 4 (List.drop 56 (encodePageDesc d)) = le32 d.flags ∧
    List.take 1 (List.drop 60 (encodePageDesc d)) = le8 d.fixed_len := by
  refine ⟨?_, ?_, ?_, ?_, ?_, ?_, ?_, ?_, ?_, ?_, ?_, ?_, ?_, ?_, ?_, ?_, ?_⟩
  · rw [encodePageDesc_flat]
    simp [WT_PAGE_DESC_SIZE]
  · obtain ⟨h1, h2, h3, h4, h5, h6, h7, h8, h9, h10, h11, h12, h13, h14,
      h15⟩ := h
    rw [encodePageDesc_flat]
    obtain ⟨magic, majorv, minorv, intlmax, intlmin, leafmax, leafmin,
      recno_offset, root_addr, root_size, records, free_addr, free_size,
      flags, fixed_len⟩ := d
    simp only [decodePageDesc, de16, de32, de64, Option.some.injEq,
      WT_PAGE_DESC.mk.injEq]
    refine ⟨?_, ?_, ?_, ?_, ?_, ?_, ?_, ?_, ?_, ?_, ?_, ?_, ?_, ?_, ?_⟩ <;>
      simp only [] at h1 h2 h3 h4 h5 h6 h7 h8 h9 h10 h11 h12 h13 h14 h15 <;>
      omega
  all_goals rw [encodePageDesc_flat]
  all_goals rfl

/-- A concrete file descriptor with the default page-size limits. -/
def exDesc : WT_PAGE_DESC :=
  ⟨120897, 0, 1, 2048, 2048, 1048576, 32768, 0, 1, 512, 42, 2, 512, 1, 8⟩

/-- C7 witness: the concrete descriptor round-trips through a 512-byte
image. -/
theorem page_desc_layout_roundtrip_witness :
    (encodePageDesc exDesc).length = WT_PAGE_DESC_SIZE ∧
    decodePageDesc (encodePageDesc exDesc) = some exDesc :=
  ⟨(page_desc_layout_roundtrip exDesc (by unfold ValidPageDesc; decide)).1,
   (page_desc_layout_roundtrip exDesc (by unfold ValidPageDesc; decide)).2.1⟩
